import Mathlib

/-!
# Verification of the harness task-orchestration engine

Shallow embedding of the hook code of this repository
(`skills/harness/hooks/_harness_common.py`, `skills/harness/hooks/self-reflect-stop.py`)
together with theorems checking the natural-language specification against it.

Python's loosely-typed task dictionaries are embedded as a structure with
optional fields: each field carries exactly the shape the code reads through
`dict.get`, and the code's defaulting logic (`or`-defaults, `is not None`
checks) is translated at each access site.  ISO-8601 timestamp parsing
(`parse_iso`) is abstracted as a `String → Option Int` parameter: the reaping
logic only branches on whether the expiry is parseable and how it compares to
`now`, so every theorem below is quantified over the parse function.
-/

namespace Harness

/-- A task record, mirroring the fields of the JSON task objects that
`_harness_common.py` reads.  Absent keys are `none`; `id`/`status`/`title` are
read through `str(t.get(k, ""))`, so they default to `""`. -/
structure Task where
  id : String := ""
  status : String := ""
  priority : Option String := none
  depends_on : Option (List String) := none
  attempts : Option Int := none
  max_attempts : Option Int := none
  claimed_by : Option String := none
  lease_expires_at : Option String := none
  claimed_at : Option String := none
  error_log : Option (List String) := none
  title : String := ""
deriving DecidableEq, Repr

/-- `priority_rank`: `{"P0": 0, "P1": 1, "P2": 2}.get(str(v or ""), 9)`. -/
def priority_rank (v : Option String) : Nat :=
  match v.getD "" with
  | "P0" => 0
  | "P1" => 1
  | "P2" => 2
  | _ => 9

/-- `task_attempts`: `int(t.get("attempts") or 0)` (the falsy value `0` maps to
`0`, which coincides with the stored value, so this is `getD 0`). -/
def task_attempts (t : Task) : Int :=
  t.attempts.getD 0

/-- `task_max_attempts`: `int(v) if v is not None else 3`. -/
def task_max_attempts (t : Task) : Int :=
  t.max_attempts.getD 3

/-- `deps_completed`: `deps = t.get("depends_on") or []`, then
`all(str(d) in completed_ids for d in deps)`. -/
def deps_completed (t : Task) (completedIds : List String) : Bool :=
  (t.depends_on.getD []).all (fun d => completedIds.contains d)

/-- `completed_ids`: ids of the tasks whose status is `"completed"`
(the code builds a `set`; only membership is ever used). -/
def completed_ids (tasks : List Task) : List String :=
  (tasks.filter (fun t => t.status == "completed")).map (fun t => t.id)

/-- The sort key used inside `eligible_tasks`:
`(priority_rank(t.get("priority")), str(t.get("id", "")))`. -/
def task_sort_key (t : Task) : Nat × String :=
  (priority_rank t.priority, t.id)

/-- Python compares key tuples lexicographically: first the priority rank,
then the id string (strings compare lexicographically by code point, which is
the lexicographic order on the underlying character lists). -/
def taskLE (a b : Task) : Prop :=
  (task_sort_key a).1 < (task_sort_key b).1 ∨
    ((task_sort_key a).1 = (task_sort_key b).1 ∧
      (task_sort_key a).2.data ≤ (task_sort_key b).2.data)

instance : DecidableRel taskLE := fun a b => by
  unfold taskLE
  infer_instance

instance : IsTotal Task taskLE where
  total a b := by
    unfold taskLE
    rcases Nat.lt_trichotomy (task_sort_key a).1 (task_sort_key b).1 with h | h | h
    · exact Or.inl (Or.inl h)
    · rcases le_total (task_sort_key a).2.data (task_sort_key b).2.data with h2 | h2
      · exact Or.inl (Or.inr ⟨h, h2⟩)
      · exact Or.inr (Or.inr ⟨h.symm, h2⟩)
    · exact Or.inr (Or.inl h)

instance : IsTrans Task taskLE where
  trans a b c hab hbc := by
    unfold taskLE at *
    rcases hab with h1 | ⟨h1, h1'⟩ <;> rcases hbc with h2 | ⟨h2, h2'⟩
    · exact Or.inl (h1.trans h2)
    · exact Or.inl (h2 ▸ h1)
    · exact Or.inl (h1 ▸ h2)
    · exact Or.inr ⟨h1.trans h2, h1'.trans h2'⟩

/-- `eligible_tasks`: split the list into pending-ready and retry-ready
candidates and sort each by `(priority_rank, id)`.  Python's `list.sort` is a
stable sort by that key; it is embedded as the stable `insertionSort` over the
same lexicographic key order (stable sorts w.r.t. the same total preorder
agree extensionally). -/
def eligible_tasks (tasks : List Task) : List Task × List Task :=
  let done := completed_ids tasks
  let pending := tasks.filter (fun t => t.status == "pending" && deps_completed t done)
  let retry := tasks.filter (fun t =>
    t.status == "failed" && decide (task_attempts t < task_max_attempts t) &&
      deps_completed t done)
  (pending.insertionSort taskLE, retry.insertionSort taskLE)

/-- `pick_next`: `pending[0] if pending else (retry[0] if retry else None)`. -/
def pick_next (pending retry : List Task) : Option Task :=
  match pending with
  | t :: _ => some t
  | [] =>
    match retry with
    | t :: _ => some t
    | [] => none

/-- The synthetic timeout message appended by `reap_stale_leases`:
`f"[SESSION_TIMEOUT] Lease expired (claimed_by={t.get('claimed_by')})"`
(Python renders an absent holder as `None`). -/
def lease_timeout_message (t : Task) : String :=
  "[SESSION_TIMEOUT] Lease expired (claimed_by=" ++
    (match t.claimed_by with
     | some s => s
     | none => "None") ++ ")"

/-- The loop body of `reap_stale_leases` for one task: skip tasks that are not
`in_progress`, whose `lease_expires_at` does not parse (`exp is None`), or
whose lease is still live (`exp > now`); otherwise increment `attempts`,
append the timeout message to `error_log` (replacing a non-list log by a fresh
one-element list), force `status = "failed"` and pop the three lease fields.
Returns the updated task and whether it changed. -/
def reap_one (parseIso : String → Option Int) (now : Int) (t : Task) : Task × Bool :=
  if t.status ≠ "in_progress" then (t, false)
  else
    match t.lease_expires_at.bind parseIso with
    | none => (t, false)
    | some exp =>
      if now < exp then (t, false)
      else
        ({ t with
            attempts := some (task_attempts t + 1),
            error_log := some (t.error_log.getD [] ++ [lease_timeout_message t]),
            status := "failed",
            claimed_by := none,
            lease_expires_at := none,
            claimed_at := none }, true)

/-- `reap_stale_leases(tasks, now)`: the Python function mutates the list in
place and returns the `changed` flag; embedded as returning the updated list
together with the flag. -/
def reap_stale_leases (parseIso : String → Option Int) (now : Int)
    (tasks : List Task) : List Task × Bool :=
  let rs := tasks.map (reap_one parseIso now)
  (rs.map Prod.fst, rs.any Prod.snd)

end Harness

namespace HarnessJson

/-- A JSON value, for the parts of the code that look at raw document
structure before any task fields are read. -/
inductive JVal where
  | null
  | bool (b : Bool)
  | num (n : Int)
  | str (s : String)
  | arr (elems : List JVal)
  | obj (fields : List (String × JVal))

/-- Lookup in a JSON object's field list (`dict.get`). -/
def lookupField : List (String × JVal) → String → Option JVal
  | [], _ => none
  | (k, v) :: rest, key => if k = key then some v else lookupField rest key

/-- `state.get(key)`: `none` when the key is absent (or the value is not an
object, which cannot arise for the dict inputs the code passes). -/
def JVal.get : JVal → String → Option JVal
  | .obj fields, key => lookupField fields key
  | _, _ => none

/-- Python truthiness of a JSON value. -/
def JVal.truthy : JVal → Bool
  | .null => false
  | .bool b => b
  | .num n => n != 0
  | .str s => !(s = "")
  | .arr xs => !xs.isEmpty
  | .obj fs => !fs.isEmpty

/-- `isinstance(v, dict)`. -/
def JVal.isObj : JVal → Bool
  | .obj _ => true
  | _ => false

/-- `isinstance(v, list)`. -/
def JVal.isArr : JVal → Bool
  | .arr _ => true
  | _ => false

/-- `load_json`, after `json.load` has produced `data`: raise `ValueError`
unless the top level is an object.  `name` is `path.name`. -/
def load_json (name : String) (data : JVal) : Except String JVal :=
  if data.isObj then Except.ok data
  else Except.error (name ++ " must be a JSON object")

/-- `parse_tasks`: `tasks_raw = state.get("tasks") or []`; raise `ValueError`
when `tasks_raw` is not a list; drop entries that are not dicts. -/
def parse_tasks (state : JVal) : Except String (List JVal) :=
  let tasks_raw :=
    match state.get "tasks" with
    | none => JVal.null
    | some v => v
  let tasks_raw := if tasks_raw.truthy then tasks_raw else JVal.arr []
  match tasks_raw with
  | .arr xs => Except.ok (xs.filter JVal.isObj)
  | _ => Except.error "tasks must be a list"

/-- `atomic_write_json` over a name-indexed filesystem (`none` = file absent):
`shutil.copy2(path, bak)` — which raises `FileNotFoundError` when `path` does
not exist, before anything is written — then write the temporary file, then
`os.replace(tmp, path)`.  `data` stands for the serialized JSON text. -/
def atomic_write_json (fs : String → Option String) (path : String)
    (data : String) : Except String (String → Option String) :=
  let bak := path ++ ".bak"
  let tmp := path ++ ".tmp"
  match fs path with
  | none => Except.error "FileNotFoundError"
  | some content =>
    let fs1 := fun p => if p = bak then some content else fs p
    let fs2 := fun p => if p = tmp then some data else fs1 p
    let fs3 := fun p => if p = tmp then none else if p = path then some data else fs2 p
    Except.ok fs3

end HarnessJson

namespace Reflect

/-- The durable and payload inputs one invocation of `self-reflect-stop.py`
reads: the payload's `session_id`, whether `find_harness_root` located a
`harness-tasks.json` (`rootFound`), whether `.harness-active` exists, the
parsed `REFLECT_MAX_ITERATIONS` value, the counter read from the per-session
counter file (unreadable reads as 0), whether the `.harness-reflect`
reflect-pending marker file exists, and the original prompt extracted from the
transcript (`""` when unavailable). -/
structure ReflectWorld where
  sessionId : String
  rootFound : Bool
  harnessActive : Bool
  maxIter : Int
  counter : Nat
  reflectMarker : Bool
  originalPrompt : String
deriving DecidableEq, Repr

/-- What one invocation emits on stdout: nothing, or a block decision. -/
inductive ReflectDecision where
  | silent
  | block (reason : String)
deriving DecidableEq, Repr

/-- The invocation's decision plus the durable state it leaves behind. -/
structure ReflectOutcome where
  decision : ReflectDecision
  counterAfter : Nat
  markerAfter : Bool
deriving DecidableEq, Repr

/-- The fixed self-check checklist appended to every reflection prompt. -/
def reflect_checklist : String :=
  "\n🔍 自省清单：" ++
  "\n1. 对照原始请求，逐项确认每个需求点是否已完整实现" ++
  "\n2. 检查是否有遗漏的边界情况、错误处理或异常场景" ++
  "\n3. 代码质量：是否有可以改进的地方（可读性、性能、安全性）" ++
  "\n4. 是否需要补充测试或文档" ++
  "\n5. 最终确认：所有改动是否一致且不互相冲突" ++
  "\n\n如果一切已完成，简要总结成果即可结束。如果发现问题，继续修复。"

/-- The first line of the block reason:
`f"[Self-Reflect] 迭代 {count + 1}/{max_iter} — 请在继续之前进行自省检查："`. -/
def reflect_header (iter : Nat) (maxIter : Int) : String :=
  "[Self-Reflect] 迭代 " ++ toString iter ++ "/" ++ toString maxIter ++
    " — 请在继续之前进行自省检查："

/-- The block reason: the parts list joined with `"\n"`, with the original
request inserted when it is non-empty. -/
def reflect_reason (iter : Nat) (maxIter : Int) (originalPrompt : String) : String :=
  let parts :=
    if originalPrompt = "" then
      [reflect_header iter maxIter, reflect_checklist]
    else
      [reflect_header iter maxIter, "\n📋 原始请求：\n" ++ originalPrompt, reflect_checklist]
  String.intercalate "\n" parts

/-- `main` of `self-reflect-stop.py`, guard by guard: empty `session_id`,
missing root, `.harness-active` present, or `max_iter <= 0` exit silently;
`count >= max_iter` exits silently; otherwise the counter is written back
incremented and a block decision is printed.  Note that the function never
reads nor deletes the `.harness-reflect` marker: `markerAfter` always equals
the incoming marker state. -/
def reflect_main (w : ReflectWorld) : ReflectOutcome :=
  if w.sessionId = "" then ⟨.silent, w.counter, w.reflectMarker⟩
  else if !w.rootFound then ⟨.silent, w.counter, w.reflectMarker⟩
  else if w.harnessActive then ⟨.silent, w.counter, w.reflectMarker⟩
  else if w.maxIter ≤ 0 then ⟨.silent, w.counter, w.reflectMarker⟩
  else if w.maxIter ≤ (w.counter : Int) then ⟨.silent, w.counter, w.reflectMarker⟩
  else
    ⟨.block (reflect_reason (w.counter + 1) w.maxIter w.originalPrompt),
      w.counter + 1, w.reflectMarker⟩

end Reflect

namespace Valve

/-- Modelled from the spec: the persisted safety-valve counter pair
`(consecutive_blocks, last_completed_count)` of the harness Stop hook
(`harness-stop.py`, which is absent from the verified sources; only its test
suite is present).  The spec stores it as the sibling marker file
`.harness-stop-counter`. -/
structure ValveState where
  consecutive_blocks : Nat
  last_completed : Nat
deriving DecidableEq, Repr

/-- A Stop decision. -/
inductive ValveDecision where
  | allow
  | block
deriving DecidableEq, Repr

/-- Modelled from the spec: one safety-valve observation of an
otherwise-blocking invocation (`harness-stop.py` is absent from the verified
sources).  Per spec §4.5: on a block decision where the completed count
increased since the last observation, reset the counter to 1 and record the
new count; otherwise increment it; once the counter reaches the threshold and
the invocation carries the host re-entrancy signal (`stop_hook_active`), force
an `allow` decision. -/
def valve_step (threshold completed : Nat) (reentrant : Bool) (st : ValveState) :
    ValveDecision × ValveState :=
  if st.last_completed < completed then
    (.block, ⟨1, completed⟩)
  else
    let c := st.consecutive_blocks + 1
    if threshold ≤ c ∧ reentrant = true then (.allow, ⟨c, st.last_completed⟩)
    else (.block, ⟨c, st.last_completed⟩)

/-- A run of `n` consecutive valve observations with a constant completed
count and no re-entrancy signal. -/
def valve_run (threshold completed : Nat) (st : ValveState) : Nat → ValveState
  | 0 => st
  | n + 1 => valve_run threshold completed (valve_step threshold completed false st).2 n

end Valve


namespace Harness

/-- `d` is a completed id exactly when some completed task in the list has
that id. -/
theorem mem_completed_ids {tasks : List Task} {d : String} :
    d ∈ completed_ids tasks ↔ ∃ u ∈ tasks, u.status = "completed" ∧ u.id = d := by
  simp only [completed_ids, List.mem_map, List.mem_filter, beq_iff_eq]
  constructor
  · rintro ⟨u, ⟨hu, hs⟩, hid⟩
    exact ⟨u, hu, hs, hid⟩
  · rintro ⟨u, hu, hs, hid⟩
    exact ⟨u, ⟨hu, hs⟩, hid⟩

/-- `deps_completed` against the completed-id set means: every listed
dependency is the id of a completed task. -/
theorem deps_completed_iff {t : Task} {tasks : List Task} :
    deps_completed t (completed_ids tasks) = true ↔
      ∀ d ∈ t.depends_on.getD [], ∃ u ∈ tasks, u.status = "completed" ∧ u.id = d := by
  simp only [deps_completed, List.all_eq_true, List.contains, List.elem_iff]
  constructor
  · intro h d hd
    exact mem_completed_ids.mp (h d hd)
  · intro h d hd
    exact mem_completed_ids.mpr (h d hd)

/-- C1: `eligible_tasks` classifies exactly per the eligibility invariant —
the first returned list contains exactly the tasks of the input whose status
is `"pending"` and whose `depends_on` ids are all ids of completed tasks in
the list; the second contains exactly the `"failed"` tasks with
`attempts < max_attempts` (`attempts` defaulting to 0, `max_attempts` to 3
when absent) and all dependencies completed. -/
theorem eligible_tasks_classifies (tasks : List Task) (t : Task) :
    (t ∈ (eligible_tasks tasks).1 ↔
      t ∈ tasks ∧ t.status = "pending" ∧
        ∀ d ∈ t.depends_on.getD [], ∃ u ∈ tasks, u.status = "completed" ∧ u.id = d) ∧
    (t ∈ (eligible_tasks tasks).2 ↔
      t ∈ tasks ∧ t.status = "failed" ∧ t.attempts.getD 0 < t.max_attempts.getD 3 ∧
        ∀ d ∈ t.depends_on.getD [], ∃ u ∈ tasks, u.status = "completed" ∧ u.id = d) := by
  unfold eligible_tasks
  constructor
  · rw [List.mem_insertionSort, List.mem_filter]
    simp only [Bool.and_eq_true, beq_iff_eq, deps_completed_iff, and_assoc]
  · rw [List.mem_insertionSort, List.mem_filter]
    simp only [Bool.and_eq_true, beq_iff_eq, decide_eq_true_eq, deps_completed_iff,
      task_attempts, task_max_attempts, and_assoc]

/-- C2: `pick_next` returns the head of the pending-ready list whenever it is
non-empty, falls back to the head of the retry-ready list only when the
pending list is empty, and returns nothing when both are empty; on the task
list `[{id: t1, status: failed, attempts: 1, max_attempts: 3},
{id: t2, status: pending, depends_on: [t1]}]` the eligible lists are
`([], [t1])` and the picked task is `t1`. -/
theorem pick_next_prefers_pending (pending retry : List Task) :
    (pending ≠ [] → pick_next pending retry = pending.head?) ∧
    (pending = [] → pick_next pending retry = retry.head?) ∧
    (pick_next pending retry = none ↔ pending = [] ∧ retry = []) ∧
    (eligible_tasks
        [{ id := "t1", status := "failed", attempts := some 1, max_attempts := some 3 },
         { id := "t2", status := "pending", depends_on := some ["t1"] }] =
          ([], [{ id := "t1", status := "failed", attempts := some 1,
                  max_attempts := some 3 }]) ∧
      pick_next
          (eligible_tasks
            [{ id := "t1", status := "failed", attempts := some 1, max_attempts := some 3 },
             { id := "t2", status := "pending", depends_on := some ["t1"] }]).1
          (eligible_tasks
            [{ id := "t1", status := "failed", attempts := some 1, max_attempts := some 3 },
             { id := "t2", status := "pending", depends_on := some ["t1"] }]).2 =
        some { id := "t1", status := "failed", attempts := some 1,
               max_attempts := some 3 }) := by
  refine ⟨?_, ?_, ?_, by decide, by decide⟩
  · intro h
    cases pending with
    | nil => exact absurd rfl h
    | cons a l => rfl
  · intro h
    subst h
    cases retry with
    | nil => rfl
    | cons a l => rfl
  · cases pending with
    | nil =>
      cases retry with
      | nil => simp [pick_next]
      | cons a l => simp [pick_next]
    | cons a l => simp [pick_next]

/-- Witness for C2 at concrete lists: a non-empty pending list wins, and an
empty pending list falls back to the retry head. -/
theorem pick_next_prefers_pending_witness :
    pick_next [({ id := "a", status := "pending" } : Task)] [{ id := "b" }] =
        some { id := "a", status := "pending" } ∧
      pick_next ([] : List Task) [{ id := "b" }] = some { id := "b" } := by
  constructor
  · have h := (pick_next_prefers_pending
      [({ id := "a", status := "pending" } : Task)] [{ id := "b" }]).1 (by simp)
    simpa using h
  · have h := (pick_next_prefers_pending ([] : List Task) [{ id := "b" }]).2.1 rfl
    simpa using h

end Harness

namespace Harness

/-- C4: both lists returned by `eligible_tasks` are sorted ascending by the
pair `(priority rank, id)` — `taskLE` is exactly that lexicographic order,
with the id (as a code-point sequence) breaking ties of equal priority rank;
the rank places `P0` before `P1` before `P2`, and an unknown or missing
priority ranks strictly last (rank 9); the order is total and transitive, and
re-running `eligible_tasks` on an unchanged list yields an identical result. -/
theorem eligible_tasks_sorted (tasks : List Task) (v : Option String)
    (hv0 : v.getD "" ≠ "P0") (hv1 : v.getD "" ≠ "P1") (hv2 : v.getD "" ≠ "P2") :
    List.Sorted taskLE (eligible_tasks tasks).1 ∧
    List.Sorted taskLE (eligible_tasks tasks).2 ∧
    (∀ a b : Task, taskLE a b ∨ taskLE b a) ∧
    (∀ a b c : Task, taskLE a b → taskLE b c → taskLE a c) ∧
    priority_rank (some "P0") < priority_rank (some "P1") ∧
    priority_rank (some "P1") < priority_rank (some "P2") ∧
    priority_rank v = 9 ∧
    priority_rank (some "P2") < priority_rank v ∧
    eligible_tasks tasks = eligible_tasks tasks := by
  have hrank : priority_rank v = 9 := by
    unfold priority_rank
    split <;> simp_all
  refine ⟨?_, ?_, fun a b => total_of taskLE a b,
    fun a b c hab hbc => IsTrans.trans a b c hab hbc, by decide, by decide, hrank, ?_, rfl⟩
  · exact List.sorted_insertionSort taskLE _
  · exact List.sorted_insertionSort taskLE _
  · rw [hrank]; decide

end Harness

namespace Harness

/-- Witness for C4 at a concrete list (the spec's two-task priority scenario)
and the concrete unknown priority `"PX"`. -/
theorem eligible_tasks_sorted_witness :
    ((some "PX" : Option String).getD "" ≠ "P0") ∧
    ((some "PX" : Option String).getD "" ≠ "P1") ∧
    ((some "PX" : Option String).getD "" ≠ "P2") ∧
    (List.Sorted taskLE
        (eligible_tasks
          [{ id := "t1", priority := some "P2", status := "pending" },
           { id := "t2", priority := some "P0", status := "pending" }]).1 ∧
      List.Sorted taskLE
        (eligible_tasks
          [{ id := "t1", priority := some "P2", status := "pending" },
           { id := "t2", priority := some "P0", status := "pending" }]).2 ∧
      (∀ a b : Task, taskLE a b ∨ taskLE b a) ∧
      (∀ a b c : Task, taskLE a b → taskLE b c → taskLE a c) ∧
      priority_rank (some "P0") < priority_rank (some "P1") ∧
      priority_rank (some "P1") < priority_rank (some "P2") ∧
      priority_rank (some "PX") = 9 ∧
      priority_rank (some "P2") < priority_rank (some "PX") ∧
      eligible_tasks
          [{ id := "t1", priority := some "P2", status := "pending" },
           { id := "t2", priority := some "P0", status := "pending" }] =
        eligible_tasks
          [{ id := "t1", priority := some "P2", status := "pending" },
           { id := "t2", priority := some "P0", status := "pending" }]) :=
  ⟨by decide, by decide, by decide,
    eligible_tasks_sorted
      [{ id := "t1", priority := some "P2", status := "pending" },
       { id := "t2", priority := some "P0", status := "pending" }]
      (some "PX") (by decide) (by decide) (by decide)⟩

end Harness

namespace Harness

/-- Reaping one task twice is the same as reaping it once, and the second
pass reports no change: a reaped task is `failed` and no longer
`in_progress`, and a skipped task is skipped again. -/
theorem reap_one_idem (parseIso : String → Option Int) (now : Int) (t : Task) :
    reap_one parseIso now (reap_one parseIso now t).1 =
      ((reap_one parseIso now t).1, false) := by
  unfold reap_one
  by_cases hs : t.status = "in_progress"
  · simp only [hs, ne_eq, not_true_eq_false, if_false, ite_not]
    cases hbind : t.lease_expires_at.bind parseIso with
    | none => simp [hs, hbind]
    | some exp =>
      by_cases hlt : now < exp
      · simp [hs, hbind, hlt]
      · simp [hs, hbind, hlt]
  · simp [hs]

/-- C9: lease reaping is idempotent — applying `reap_stale_leases` to its own
output (at the same `now`) returns the list unchanged and reports
`changed = false`. -/
theorem reap_stale_leases_idempotent (parseIso : String → Option Int) (now : Int)
    (tasks : List Task) :
    reap_stale_leases parseIso now (reap_stale_leases parseIso now tasks).1 =
      ((reap_stale_leases parseIso now tasks).1, false) := by
  unfold reap_stale_leases
  simp only [List.map_map, List.any_map]
  refine Prod.ext ?_ ?_
  · simp only []
    apply List.map_congr_left
    intro t _
    simp only [Function.comp_apply]
    rw [reap_one_idem]
  · simp only []
    rw [List.any_eq_false]
    intro t ht
    rcases List.mem_map.mp ht with ⟨u, _, hu⟩
    simp only [Function.comp_apply] at hu
    rw [reap_one_idem] at hu
    rw [← hu]
    simp

end Harness

namespace Harness

/-- C3: `reap_stale_leases` preserves the list's length and maps exactly the
`in_progress` tasks whose `lease_expires_at` parses to a time at or before
`now` to `failed`, with `attempts` incremented by exactly 1, exactly one
synthetic timeout message naming the prior holder appended to `error_log`,
and the `claimed_by` / `lease_expires_at` / `claimed_at` fields removed; every
other task — not `in_progress`, lease not yet expired, or expiry absent or
unparseable — is returned completely unchanged. -/
theorem reap_stale_leases_classifies (parseIso : String → Option Int) (now : Int)
    (tasks : List Task) (i : Nat) (t : Task) (h : tasks[i]? = some t) :
    (reap_stale_leases parseIso now tasks).1.length = tasks.length ∧
    (reap_stale_leases parseIso now tasks).1[i]? = some
      (if t.status = "in_progress" then
        match t.lease_expires_at.bind parseIso with
        | none => t
        | some exp =>
          if exp ≤ now then
            { t with
                status := "failed",
                attempts := some (t.attempts.getD 0 + 1),
                error_log := some (t.error_log.getD [] ++
                  ["[SESSION_TIMEOUT] Lease expired (claimed_by=" ++
                    (match t.claimed_by with
                     | some s => s
                     | none => "None") ++ ")"]),
                claimed_by := none,
                lease_expires_at := none,
                claimed_at := none }
          else t
      else t) := by
  constructor
  · show ((tasks.map (reap_one parseIso now)).map Prod.fst).length = tasks.length
    simp
  · show ((tasks.map (reap_one parseIso now)).map Prod.fst)[i]? = _
    rw [List.getElem?_map, List.getElem?_map, h]
    show some (reap_one parseIso now t).1 = _
    congr 1
    unfold reap_one
    by_cases hs : t.status = "in_progress"
    · rw [if_neg (fun hne => hne hs), if_pos hs]
      cases hbind : t.lease_expires_at.bind parseIso with
      | none => rfl
      | some exp =>
        dsimp only
        by_cases hle : exp ≤ now
        · rw [if_neg (not_lt.mpr hle), if_pos hle]
          unfold task_attempts lease_timeout_message
          rfl
        · rw [if_pos (not_le.mp hle), if_neg hle]
    · rw [if_pos hs, if_neg hs]

/-- Witness for C3: one concrete expired lease (the integer-string parse
function stands in for ISO parsing) is reaped at index 0. -/
theorem reap_stale_leases_classifies_witness :
    (([({ id := "t1", status := "in_progress", attempts := some 1,
          claimed_by := some "w1", lease_expires_at := some "50",
          claimed_at := some "10" } : Task)])[0]? =
      some { id := "t1", status := "in_progress", attempts := some 1,
             claimed_by := some "w1", lease_expires_at := some "50",
             claimed_at := some "10" }) ∧
    ((reap_stale_leases (fun s => if s = "50" then some (50 : Int) else none) 100
        [{ id := "t1", status := "in_progress", attempts := some 1,
           claimed_by := some "w1", lease_expires_at := some "50",
           claimed_at := some "10" }]).1.length = 1 ∧
      (reap_stale_leases (fun s => if s = "50" then some (50 : Int) else none) 100
        [{ id := "t1", status := "in_progress", attempts := some 1,
           claimed_by := some "w1", lease_expires_at := some "50",
           claimed_at := some "10" }]).1[0]? =
        some { id := "t1", status := "failed", attempts := some 2,
               error_log := some
                 ["[SESSION_TIMEOUT] Lease expired (claimed_by=w1)"] }) := by
  refine ⟨rfl, ?_⟩
  have h := reap_stale_leases_classifies (fun s => if s = "50" then some (50 : Int) else none) 100
    [{ id := "t1", status := "in_progress", attempts := some 1,
       claimed_by := some "w1", lease_expires_at := some "50",
       claimed_at := some "10" }] 0
    { id := "t1", status := "in_progress", attempts := some 1,
      claimed_by := some "w1", lease_expires_at := some "50",
      claimed_at := some "10" } rfl
  refine ⟨h.1, ?_⟩
  rw [h.2]
  decide

end Harness

namespace HarnessJson

/-- C10: the atomic save can only replace an existing document, never create
the first one — when the target path has no existing file the backup copy
step raises `FileNotFoundError` before any write, and when the target exists
the replace succeeds and the target holds the new data. -/
theorem atomic_write_json_requires_existing (fs : String → Option String)
    (path data : String) :
    (fs path = none →
      atomic_write_json fs path data = Except.error "FileNotFoundError") ∧
    (∀ c, fs path = some c →
      ∃ fs2, atomic_write_json fs path data = Except.ok fs2 ∧
        fs2 path = some data ∧ fs2 (path ++ ".bak") = some c) := by
  constructor
  · intro h
    unfold atomic_write_json
    rw [h]
  · intro c h
    unfold atomic_write_json
    rw [h]
    refine ⟨_, rfl, ?_, ?_⟩
    · have htmp : path ≠ path ++ ".tmp" := by
        intro he
        have hl := congrArg String.length he
        simp [String.length_append] at hl
        exact absurd hl (by decide)
      simp [htmp]
    · have h1 : path ++ ".bak" ≠ path ++ ".tmp" := by
        intro he
        have hl := congrArg (fun s : String => s.data.getLast?) he
        simp [String.data_append] at hl
      have h2 : path ++ ".bak" ≠ path := by
        intro he
        have hl := congrArg String.length he
        simp [String.length_append] at hl
        exact absurd hl (by decide)
      simp [h1, h2]

/-- Witness for C10: writing to a path with no existing file errors out;
writing over an existing file succeeds and replaces the content. -/
theorem atomic_write_json_requires_existing_witness :
    ((fun _ : String => (none : Option String)) "harness-tasks.json" = none ∧
      atomic_write_json (fun _ => none) "harness-tasks.json" "data" =
        Except.error "FileNotFoundError") ∧
    ((fun p : String => if p = "harness-tasks.json" then some "old" else none)
        "harness-tasks.json" = some "old" ∧
      ∃ fs2,
        atomic_write_json
            (fun p => if p = "harness-tasks.json" then some "old" else none)
            "harness-tasks.json" "data" = Except.ok fs2 ∧
          fs2 "harness-tasks.json" = some "data" ∧
          fs2 ("harness-tasks.json" ++ ".bak") = some "old") := by
  constructor
  · exact ⟨rfl,
      (atomic_write_json_requires_existing (fun _ => none)
        "harness-tasks.json" "data").1 rfl⟩
  · refine ⟨by decide, ?_⟩
    exact (atomic_write_json_requires_existing
      (fun p => if p = "harness-tasks.json" then some "old" else none)
      "harness-tasks.json" "data").2 "old" (by decide)

/-- C8 counterexample: on a document whose `tasks` field is the (truthy,
non-list) string `"not a list"`, `parse_tasks` raises `ValueError` to the
caller instead of returning an empty task list, and `load_json` on a
non-object top level likewise raises. -/
theorem parse_tasks_nonlist_raises :
    parse_tasks (JVal.obj [("tasks", JVal.str "not a list")]) =
        Except.error "tasks must be a list" ∧
      parse_tasks (JVal.obj [("tasks", JVal.str "not a list")]) ≠
        Except.ok ([] : List JVal) ∧
      load_json "harness-tasks.json" (JVal.arr [JVal.num 1]) =
        Except.error "harness-tasks.json must be a JSON object" := by
  refine ⟨rfl, ?_, rfl⟩
  intro h
  rw [show parse_tasks (JVal.obj [("tasks", JVal.str "not a list")]) =
      Except.error "tasks must be a list" from rfl] at h
  exact Except.noConfusion h

/-- C8 (amended): a missing or falsy `tasks` field degrades to the empty
task list and a list field keeps its dict entries, but a truthy non-list
`tasks` field makes `parse_tasks` raise `ValueError` to its caller, and a
non-object top level makes `load_json` raise — neither returns an empty
list. -/
theorem parse_tasks_degrades_only_on_falsy (state : JVal) :
    (state.get "tasks" = none → parse_tasks state = Except.ok []) ∧
    (∀ v, state.get "tasks" = some v → v.truthy = false →
      parse_tasks state = Except.ok []) ∧
    (∀ v, state.get "tasks" = some v → v.truthy = true → v.isArr = false →
      parse_tasks state = Except.error "tasks must be a list") ∧
    (∀ xs, state.get "tasks" = some (JVal.arr xs) →
      parse_tasks state = Except.ok (xs.filter JVal.isObj)) ∧
    (∀ name d, d.isObj = false →
      load_json name d = Except.error (name ++ " must be a JSON object")) ∧
    (∀ name d, d.isObj = true → load_json name d = Except.ok d) := by
  refine ⟨?_, ?_, ?_, ?_, ?_, ?_⟩
  · intro h
    unfold parse_tasks
    rw [h]
    rfl
  · intro v hv htr
    unfold parse_tasks
    rw [hv]
    simp [htr]
  · intro v hv htr hna
    unfold parse_tasks
    rw [hv]
    simp only [htr, if_true]
    cases v with
    | null => simp [JVal.truthy] at htr
    | bool b => rfl
    | num n => rfl
    | str s => rfl
    | arr xs => simp [JVal.isArr] at hna
    | obj fs => rfl
  · intro xs hv
    unfold parse_tasks
    rw [hv]
    by_cases he : xs.isEmpty
    · rw [List.isEmpty_iff] at he
      subst he
      rfl
    · simp [JVal.truthy, he]
  · intro name d hd
    unfold load_json
    rw [hd]
    rfl
  · intro name d hd
    unfold load_json
    rw [hd]
    rfl

/-- Witness for C8 (amended) at concrete documents: absent field, falsy
field, truthy string field, list field, non-object top level, object top
level. -/
theorem parse_tasks_degrades_only_on_falsy_witness :
    ((JVal.obj [("tasks", JVal.str "x")]).get "tasks" = some (JVal.str "x") ∧
      (JVal.str "x").truthy = true ∧ (JVal.str "x").isArr = false ∧
      parse_tasks (JVal.obj [("tasks", JVal.str "x")]) =
        Except.error "tasks must be a list") ∧
    ((JVal.obj []).get "tasks" = none ∧
      parse_tasks (JVal.obj []) = Except.ok []) := by
  constructor
  · refine ⟨rfl, rfl, rfl, ?_⟩
    exact (parse_tasks_degrades_only_on_falsy
      (JVal.obj [("tasks", JVal.str "x")])).2.2.1 (JVal.str "x") rfl rfl rfl
  · refine ⟨rfl, ?_⟩
    exact (parse_tasks_degrades_only_on_falsy (JVal.obj [])).1 rfl

end HarnessJson

namespace Valve

/-- A single no-progress, no-re-entrancy observation blocks and increments
the persisted counter by exactly one. -/
theorem valve_step_no_progress (threshold : Nat) (st : ValveState) :
    valve_step threshold st.last_completed false st =
      (.block, ⟨st.consecutive_blocks + 1, st.last_completed⟩) := by
  unfold valve_step
  rw [if_neg (lt_irrefl st.last_completed)]
  simp

/-- A run of n no-progress observations accumulates n counter increments. -/
theorem valve_run_accumulates (threshold : Nat) (st : ValveState) (n : Nat) :
    valve_run threshold st.last_completed st n =
      ⟨st.consecutive_blocks + n, st.last_completed⟩ := by
  induction n generalizing st with
  | zero => rfl
  | succ n ih =>
    show valve_run threshold st.last_completed
        (valve_step threshold st.last_completed false st).2 n = _
    rw [valve_step_no_progress]
    have h := ih ⟨st.consecutive_blocks + 1, st.last_completed⟩
    simp only [] at h
    rw [h]
    simp [Nat.add_assoc, Nat.add_comm 1 n]

/-- C7: the safety valve (modelled from the spec, `harness-stop.py` being
absent from the verified sources): a block decision with unchanged completed
count increments the persisted consecutive-block counter by exactly 1, and a
run of n such observations accumulates n increments; once the counter reaches
the threshold during an invocation that carries the host re-entrancy signal,
the decision is `allow`; and a block decision after the completed count has
increased resets the counter to 1 and records the new completed count. -/
theorem valve_safety (threshold completed n : Nat) (r : Bool) (st : ValveState) :
    (completed = st.last_completed →
      (valve_step threshold completed r st).1 = .block →
      (valve_step threshold completed r st).2 =
        ⟨st.consecutive_blocks + 1, st.last_completed⟩) ∧
    (valve_run threshold st.last_completed st n =
      ⟨st.consecutive_blocks + n, st.last_completed⟩) ∧
    (completed = st.last_completed → threshold ≤ st.consecutive_blocks + 1 →
      r = true → (valve_step threshold completed r st).1 = .allow) ∧
    (st.last_completed < completed →
      valve_step threshold completed r st = (.block, ⟨1, completed⟩)) := by
  refine ⟨?_, valve_run_accumulates threshold st n, ?_, ?_⟩
  · intro hc _
    subst hc
    unfold valve_step
    rw [if_neg (lt_irrefl st.last_completed)]
    by_cases hr : threshold ≤ st.consecutive_blocks + 1 ∧ r = true
    · simp [valve_step, hr]
    · simp [valve_step, hr]
  · intro hc hle hr
    subst hc
    subst hr
    unfold valve_step
    rw [if_neg (lt_irrefl st.last_completed)]
    simp [hle]
  · intro hc
    unfold valve_step
    rw [if_pos hc]

/-- Witness for C7 mirroring the repository's Stop-hook tests: with threshold
10, the persisted pair (9, 0) plus the re-entrancy signal yields `allow`, a
three-step no-progress run starting from (2, 0) reaches (5, 0), and a block
observation after progress (completed count 1 over recorded 0) resets the
pair to (1, 1). -/
theorem valve_safety_witness :
    ((0 = (⟨9, 0⟩ : ValveState).last_completed →
      (valve_step 10 0 true ⟨9, 0⟩).1 = .block →
      (valve_step 10 0 true ⟨9, 0⟩).2 = ⟨10, 0⟩) ∧
    (valve_run 10 (⟨2, 0⟩ : ValveState).last_completed ⟨2, 0⟩ 3 = ⟨5, 0⟩) ∧
    (0 = (⟨9, 0⟩ : ValveState).last_completed → 10 ≤ 9 + 1 → true = true →
      (valve_step 10 0 true ⟨9, 0⟩).1 = .allow) ∧
    ((⟨7, 0⟩ : ValveState).last_completed < 1 →
      valve_step 10 1 true ⟨7, 0⟩ = (.block, ⟨1, 1⟩))) ∧
    (valve_step 10 0 true ⟨9, 0⟩).1 = .allow ∧
    valve_step 10 1 true ⟨7, 0⟩ = (.block, ⟨1, 1⟩) := by
  have h9 := valve_safety 10 0 3 true (⟨9, 0⟩ : ValveState)
  have h7 := valve_safety 10 1 3 true (⟨7, 0⟩ : ValveState)
  refine ⟨⟨h9.1, ?_, h9.2.2.1, h7.2.2.2⟩, ?_, ?_⟩
  · have h2 := valve_safety 10 0 3 true (⟨2, 0⟩ : ValveState)
    exact h2.2.1
  · exact h9.2.2.1 rfl (by decide) rfl
  · exact h7.2.2.2 (by decide)

end Valve

namespace Reflect

/-- C5 evaluated at the failing input: with the task document present, the
active-session marker absent, and the reflect-pending marker ABSENT, the
hook still emits a block decision (and increments its counter) — `main`
never consults the `.harness-reflect` marker, contradicting the repository's
own test `test_stale_tasks_without_reflect_marker_is_noop`. -/
theorem reflect_main_blocks_without_marker :
    reflect_main { sessionId := "test-stale", rootFound := true,
                   harnessActive := false, maxIter := 5, counter := 0,
                   reflectMarker := false, originalPrompt := "" } =
      { decision := .block (reflect_reason 1 5 ""), counterAfter := 1,
        markerAfter := false } := rfl

end Reflect

namespace Reflect

set_option maxRecDepth 8192 in
/-- C6 evaluated at the boundary: for maximum 5, invocations with persisted
counters 0..4 each block with a reason embedding `1/5` .. `5/5` and increment
the counter by one; the sixth invocation (counter 5) is a silent allow but
LEAVES the reflect marker in place (`markerAfter = true`), contradicting the
claimed marker removal (and the repository's own test
`test_max_iterations_allows_stop_and_cleans_marker`); for maximum 0 every
invocation is a silent allow. -/
theorem reflect_main_boundary_run :
    (reflect_main ⟨"s1", true, false, 5, 0, true, ""⟩ =
      ⟨.block (reflect_reason 1 5 ""), 1, true⟩) ∧
    (reflect_main ⟨"s1", true, false, 5, 1, true, ""⟩ =
      ⟨.block (reflect_reason 2 5 ""), 2, true⟩) ∧
    (reflect_main ⟨"s1", true, false, 5, 2, true, ""⟩ =
      ⟨.block (reflect_reason 3 5 ""), 3, true⟩) ∧
    (reflect_main ⟨"s1", true, false, 5, 3, true, ""⟩ =
      ⟨.block (reflect_reason 4 5 ""), 4, true⟩) ∧
    (reflect_main ⟨"s1", true, false, 5, 4, true, ""⟩ =
      ⟨.block (reflect_reason 5 5 ""), 5, true⟩) ∧
    (∃ pre post, reflect_reason 1 5 "" = pre ++ "1/5" ++ post) ∧
    (∃ pre post, reflect_reason 2 5 "" = pre ++ "2/5" ++ post) ∧
    (∃ pre post, reflect_reason 3 5 "" = pre ++ "3/5" ++ post) ∧
    (∃ pre post, reflect_reason 4 5 "" = pre ++ "4/5" ++ post) ∧
    (∃ pre post, reflect_reason 5 5 "" = pre ++ "5/5" ++ post) ∧
    (reflect_main ⟨"s1", true, false, 5, 5, true, ""⟩ = ⟨.silent, 5, true⟩) ∧
    (reflect_main ⟨"s1", true, false, 0, 0, true, ""⟩ = ⟨.silent, 0, true⟩) ∧
    (reflect_main ⟨"s1", true, false, 0, 3, true, ""⟩ = ⟨.silent, 3, true⟩) := by
  refine ⟨rfl, rfl, rfl, rfl, rfl, ?_, ?_, ?_, ?_, ?_, rfl, rfl, rfl⟩
  all_goals
    exact ⟨"[Self-Reflect] 迭代 ",
      " — 请在继续之前进行自省检查：" ++ "\n" ++ reflect_checklist, by decide⟩

end Reflect
